import Mathlib

/-!
# Verification of the MuseTalk serverless job handler

A shallow embedding of `handler.py`: the job-execution pipeline
(validate → fetch image → fetch audio → synthesize → publish) with
workspace acquisition/cleanup and the outermost catch-all.

Modelling choices:
* Every effectful primitive the Python code calls (HTTP download via
  `requests.get`, `subprocess.run`, `os.getenv`, `boto3` upload,
  `tempfile.mkdtemp`, `shutil.rmtree`, `import torch` / `import boto3`,
  filesystem probes) is given its outcome by an `Env` record, so each
  Python function becomes a pure Lean function of `Env`.
* Python exceptions become explicit outcome constructors; a `try/except`
  in the source becomes the corresponding `match` here.  `Exception`
  subclass dispatch (`Timeout` vs `RequestException` vs bare
  `Exception`, `ImportError`, `subprocess.TimeoutExpired`) is mirrored
  by distinct constructors.
* Observable side effects are recorded in an event trace (`List Event`);
  each function returns its Python return value paired with the events
  it emitted, in order.
* Python dicts returned to the caller are ordered association lists of
  string pairs (`Dict`); all values in the handler's results are strings.
* Python truthiness of an optional string (`None` and `""` are falsy,
  as in `if not image_url:` / `if not access_key:`) is `isTruthy`.
-/

/-- A returned Python dict with string values, as an ordered key-value list. -/
abbrev Dict := List (String × String)

/-- Python truthiness of an optional string: `None` and `""` are falsy. -/
def isTruthy : Option String → Bool
  | none => false
  | some s => !s.isEmpty

/-- The inbound job descriptor: `job.get('id', 'unknown')` and the two
fields read from `job.get('input', {})`.  A `none` field models a missing
key (a job with no `input` dict has both URL fields `none`). -/
structure Job where
  id : Option String
  input_image_url : Option String
  input_audio_url : Option String

/-- Outcome of one `requests.get(url, stream=True, timeout=60)` attempt plus
the chunked write to the local file (`download_file`'s `try` body).
`timeout` is `requests.exceptions.Timeout`, `requestError` is any other
`requests.exceptions.RequestException`, `otherError` is any other
`Exception` raised in the body (e.g. the file write failing). -/
inductive FetchBehavior
  | ok
  | timeout
  | requestError (msg : String)
  | otherError (msg : String)
deriving DecidableEq

/-- Outcome of a `subprocess.run(cmd, ..., timeout=t)` call:
completed with a return code and captured stderr, raised
`subprocess.TimeoutExpired`, or raised some other `Exception`
(e.g. the executable was not found). -/
inductive SubprocBehavior
  | done (returncode : Int) (stderr : String)
  | timedOut
  | raised (msg : String)
deriving DecidableEq

/-- Observable side effects, in program order. -/
inductive Event
  /-- `tempfile.mkdtemp(...)` was called. -/
  | mkdtempCall
  /-- `requests.get(url, stream=True, timeout=bound)` was issued. -/
  | httpGet (url : String) (timeoutBound : Nat)
  /-- `subprocess.run` spawned `prog` with `timeout=timeoutBound`. -/
  | subproc (prog : String) (timeoutBound : Nat)
  /-- `s3_client.upload_file` was attempted against `endpointUrl` with the
  resolved `accessKey`, targeting `bucket/objectName`. -/
  | s3Put (endpointUrl : String) (accessKey : String)
      (bucket : String) (objectName : String)
  /-- `shutil.rmtree(path)` was called; `ok` is false when it raised
  (the fault is swallowed by the bare `except: pass`). -/
  | rmtreeCall (path : String) (ok : Bool)
deriving DecidableEq

/-- The ambient world: one field per effectful primitive the handler uses. -/
structure Env where
  /-- `MODEL_DIR.exists()`. -/
  modelDirExists : Bool
  /-- `(WORKSPACE / "scripts" / "inference.py").exists()`. -/
  inferenceScriptExists : Bool
  /-- `import torch`: `some msg` means it raised `ImportError(msg)`. -/
  torchImport : Option String
  /-- The MuseTalk inference `subprocess.run` (timeout 300). -/
  inferenceRun : SubprocBehavior
  /-- `list(result_dir.glob("*.mp4"))` after a successful inference run. -/
  resultVideos : List String
  /-- The fallback ffmpeg `subprocess.run` (timeout 60). -/
  ffmpegRun : SubprocBehavior
  /-- Download behaviour for the image URL. -/
  fetchImage : FetchBehavior
  /-- Download behaviour for the audio URL. -/
  fetchAudio : FetchBehavior
  /-- `os.getenv`: `none` means the variable is unset. -/
  getenv : String → Option String
  /-- `import boto3` / `botocore`: `some msg` means it raised. -/
  boto3Import : Option String
  /-- `s3_client.upload_file`: `some msg` means it raised `Exception(msg)`. -/
  s3Upload : Option String
  /-- `tempfile.mkdtemp(...)`: the created path, or a raised exception. -/
  mkdtemp : Except String String
  /-- `shutil.rmtree(temp_dir)`: `some msg` means it raised. -/
  rmtree : Option String

/-- The `timeout=60` argument of `requests.get` in `download_file`. -/
def requestsTimeout : Nat := 60

/-- The `timeout=300` argument of the inference `subprocess.run`. -/
def inferenceTimeout : Nat := 300

/-- The `timeout=60` argument of the fallback ffmpeg `subprocess.run`. -/
def ffmpegTimeout : Nat := 60

/-- `download_file(url, local_path)`: returns `(path?, error?)` exactly as
the Python function does, plus the emitted trace. -/
def download_file (beh : FetchBehavior) (url localPath : String) :
    (Option String × Option String) × List Event :=
  match beh with
  | .ok => ((some localPath, none), [.httpGet url requestsTimeout])
  | .timeout =>
      ((none, some "Download timeout after 60 seconds"),
        [.httpGet url requestsTimeout])
  | .requestError m =>
      ((none, some ("Download failed: " ++ m)), [.httpGet url requestsTimeout])
  | .otherError m =>
      ((none, some ("Unexpected download error: " ++ m)),
        [.httpGet url requestsTimeout])

/-- Credential resolution in `upload_to_s3` (lines 53-61 of `handler.py`):
the primary `BUCKET_*` pair is read first; when either half is falsy the
variables are reassigned from the fallback `RUNPOD_S3_*` set (including the
endpoint).  Returns `(access_key, secret_key, endpoint_url)` as they stand
after those assignments. -/
def resolveCreds (env : Env) : Option String × Option String × String :=
  let endpoint0 :=
    (env.getenv "BUCKET_ENDPOINT_URL").getD "https://storage.runpod.io"
  let access0 := env.getenv "BUCKET_ACCESS_KEY_ID"
  let secret0 := env.getenv "BUCKET_SECRET_ACCESS_KEY"
  if !isTruthy access0 || !isTruthy secret0 then
    (env.getenv "RUNPOD_S3_ACCESS_KEY",
     env.getenv "RUNPOD_S3_SECRET_KEY",
     (env.getenv "RUNPOD_S3_ENDPOINT").getD endpoint0)
  else
    (access0, secret0, endpoint0)

/-- `upload_to_s3(file_path, bucket_name, object_name)`: credential
resolution, the missing-credentials check, then the upload; the whole body
is inside `try/except Exception`. -/
def upload_to_s3 (env : Env) (filePath bucketName objectName : String) :
    (Option String × Option String) × List Event :=
  match env.boto3Import with
  | some m => ((none, some ("S3 upload failed: " ++ m)), [])
  | none =>
    let resolved := resolveCreds env
    if !isTruthy resolved.1 || !isTruthy resolved.2.1 then
      ((none, some "S3 credentials not configured"), [])
    else
      match env.s3Upload with
      | some m =>
          ((none, some ("S3 upload failed: " ++ m)),
            [.s3Put resolved.2.2 (resolved.1.getD "") bucketName objectName])
      | none =>
          ((some (resolved.2.2 ++ "/" ++ bucketName ++ "/" ++ objectName),
              none),
            [.s3Put resolved.2.2 (resolved.1.getD "") bucketName objectName])

/-- `generate_video_musetalk(image_path, audio_path, output_path)`:
model-directory precondition, then `import torch` (ImportError handled),
then primary inference when the inference script exists, else the ffmpeg
fallback; `subprocess.TimeoutExpired` and bare `Exception` are caught at
the outer `try` of the function. -/
def generate_video_musetalk (env : Env)
    (imagePath audioPath outputPath : String) :
    (Option String × Option String) × List Event :=
  if !env.modelDirExists then
    ((none, some "MuseTalk models not found - run model download first"), [])
  else
    match env.torchImport with
    | some m => ((none, some ("MuseTalk import failed: " ++ m)), [])
    | none =>
      if env.inferenceScriptExists then
        match env.inferenceRun with
        | .timedOut =>
            ((none, some "Video generation timeout (>5 minutes)"),
              [.subproc "python" inferenceTimeout])
        | .raised m =>
            ((none, some ("Video generation error: " ++ m)),
              [.subproc "python" inferenceTimeout])
        | .done rc stderr =>
            if rc ≠ 0 then
              ((none, some ("MuseTalk inference failed: " ++ stderr)),
                [.subproc "python" inferenceTimeout])
            else
              match env.resultVideos with
              | [] =>
                  ((none, some "No output video generated"),
                    [.subproc "python" inferenceTimeout])
              | _ :: _ =>
                  ((some outputPath, none), [.subproc "python" inferenceTimeout])
      else
        match env.ffmpegRun with
        | .timedOut =>
            ((none, some "Video generation timeout (>5 minutes)"),
              [.subproc "ffmpeg" ffmpegTimeout])
        | .raised m =>
            ((none, some ("Video generation error: " ++ m)),
              [.subproc "ffmpeg" ffmpegTimeout])
        | .done rc stderr =>
            if rc ≠ 0 then
              ((none, some ("FFmpeg test video failed: " ++ stderr)),
                [.subproc "ffmpeg" ffmpegTimeout])
            else
              ((some outputPath, none), [.subproc "ffmpeg" ffmpegTimeout])

/-- The body of the handler's inner `try` (lines 207-252 of `handler.py`):
fetch image, fetch audio, synthesize, publish, in strict sequence, each
error short-circuiting into the returned error dict. -/
def handler_core (env : Env) (job_id image_url audio_url temp_dir : String) :
    Dict × List Event :=
  let image_path := temp_dir ++ "/input.png"
  let rImg := download_file env.fetchImage image_url image_path
  match rImg.1.2 with
  | some e => ([("error", "Failed to download image: " ++ e)], rImg.2)
  | none =>
    let audio_path := temp_dir ++ "/input.wav"
    let rAud := download_file env.fetchAudio audio_url audio_path
    match rAud.1.2 with
    | some e =>
        ([("error", "Failed to download audio: " ++ e)], rImg.2 ++ rAud.2)
    | none =>
      let output_path := temp_dir ++ "/output.mp4"
      let rGen := generate_video_musetalk env (rImg.1.1.getD "")
        (rAud.1.1.getD "") output_path
      match rGen.1.2 with
      | some e => ([("error", e)], rImg.2 ++ rAud.2 ++ rGen.2)
      | none =>
        let bucket := (env.getenv "RUNPOD_S3_BUCKET").getD "flowsmartly-avatars"
        let object_name := "musetalk/" ++ job_id ++ ".mp4"
        let rUp := upload_to_s3 env (rGen.1.1.getD "") bucket object_name
        match rUp.1.2 with
        | some e => ([("error", e)], rImg.2 ++ rAud.2 ++ rGen.2 ++ rUp.2)
        | none =>
            ([("output_video_url", rUp.1.1.getD ""),
              ("status", "completed"),
              ("model", "musetalk"),
              ("job_id", job_id)],
              rImg.2 ++ rAud.2 ++ rGen.2 ++ rUp.2)

/-- The `finally` block: `shutil.rmtree(temp_dir)` inside `try ... except:
pass` — a removal fault is swallowed and only shows in the trace. -/
def cleanup (env : Env) (temp_dir : String) : List Event :=
  match env.rmtree with
  | none => [.rmtreeCall temp_dir true]
  | some _ => [.rmtreeCall temp_dir false]

/-- `handler(job)`: validation, workspace acquisition, the inner
`try/finally` around `handler_core`, and the outermost
`except Exception` that converts any escaped fault into
`{"error": "Handler error: <detail>"}`.  In this model the only primitive
inside the outer `try` that can raise past a stage boundary is
`tempfile.mkdtemp` (every stage function catches its own exceptions, and
the `finally` swallows `rmtree` faults), so the catch-all fires exactly
on a `mkdtemp` fault — which happens before the inner `try`, hence with
no cleanup, matching the source. -/
def handler (env : Env) (job : Job) : Dict × List Event :=
  let job_id := job.id.getD "unknown"
  if !isTruthy job.input_image_url then
    ([("error", "input_image_url is required")], [])
  else if !isTruthy job.input_audio_url then
    ([("error", "input_audio_url is required")], [])
  else
    match env.mkdtemp with
    | .error m => ([("error", "Handler error: " ++ m)], [.mkdtempCall])
    | .ok temp_dir =>
        let r := handler_core env job_id (job.input_image_url.getD "")
          (job.input_audio_url.getD "") temp_dir
        (r.1, .mkdtempCall :: r.2 ++ cleanup env temp_dir)

/-- The success result shape: exactly the four keys, in the order the
source builds them, with the fixed status and model values. -/
def isSuccessShape (d : Dict) : Bool :=
  match d with
  | [(k1, _), (k2, v2), (k3, v3), (k4, _)] =>
      k1 = "output_video_url" && k2 = "status" && v2 = "completed" &&
        k3 = "model" && v3 = "musetalk" && k4 = "job_id"
  | _ => false

/-- The failure result shape: exactly the single `error` key. -/
def isErrorShape (d : Dict) : Bool :=
  match d with
  | [(k, _)] => k = "error"
  | _ => false

/-! ## Event classifiers -/

/-- Does the event spawn any subprocess? -/
def isSubprocSpawn : Event → Bool
  | .subproc _ _ => true
  | _ => false

/-- Does the event spawn the fallback `ffmpeg` process? -/
def isFfmpegSpawn : Event → Bool
  | .subproc p _ => p = "ffmpeg"
  | _ => false

/-- Is the event an attempted S3 network call? -/
def isS3Put : Event → Bool
  | .s3Put _ _ _ _ => true
  | _ => false

/-! ## Case-analysis lemmas for the stage functions -/

/-- A download either yields the destination path with no error, or no path
with some error; either way exactly one HTTP request is issued, with the
60-second bound. -/
theorem download_file_cases (beh : FetchBehavior) (url p : String) :
    download_file beh url p = ((some p, none), [.httpGet url requestsTimeout]) ∨
      ∃ e, download_file beh url p =
        ((none, some e), [.httpGet url requestsTimeout]) := by
  cases beh
  · exact Or.inl rfl
  · exact Or.inr ⟨_, rfl⟩
  · exact Or.inr ⟨_, rfl⟩
  · exact Or.inr ⟨_, rfl⟩

/-- Synthesis either succeeds with exactly the requested output path, or
fails with some error message. -/
theorem generate_cases (env : Env) (i a o : String) :
    (∃ t, generate_video_musetalk env i a o = ((some o, none), t)) ∨
      ∃ e t, generate_video_musetalk env i a o = ((none, some e), t) := by
  unfold generate_video_musetalk
  split
  · exact Or.inr ⟨_, _, rfl⟩
  · split
    · exact Or.inr ⟨_, _, rfl⟩
    · split
      · cases h : env.inferenceRun with
        | timedOut => exact Or.inr ⟨_, _, rfl⟩
        | raised m => exact Or.inr ⟨_, _, rfl⟩
        | done rc stderr =>
            by_cases hrc : rc ≠ 0
            · simp only [if_pos hrc]
              exact Or.inr ⟨_, _, rfl⟩
            · simp only [if_neg hrc]
              cases hv : env.resultVideos with
              | nil => exact Or.inr ⟨_, _, rfl⟩
              | cons v vs => exact Or.inl ⟨_, rfl⟩
      · cases h : env.ffmpegRun with
        | timedOut => exact Or.inr ⟨_, _, rfl⟩
        | raised m => exact Or.inr ⟨_, _, rfl⟩
        | done rc stderr =>
            by_cases hrc : rc ≠ 0
            · simp only [if_pos hrc]
              exact Or.inr ⟨_, _, rfl⟩
            · simp only [if_neg hrc]
              exact Or.inl ⟨_, rfl⟩

/-- Every event a synthesis call emits is a subprocess spawn. -/
theorem generate_events_subproc (env : Env) (i a o : String) :
    ∀ ev ∈ (generate_video_musetalk env i a o).2, isSubprocSpawn ev = true := by
  unfold generate_video_musetalk
  split
  · simp
  · split
    · simp
    · split
      · cases h : env.inferenceRun with
        | timedOut => simp [isSubprocSpawn]
        | raised m => simp [isSubprocSpawn]
        | done rc stderr =>
            by_cases hrc : rc ≠ 0
            · simp only [if_pos hrc]
              simp [isSubprocSpawn]
            · simp only [if_neg hrc]
              cases hv : env.resultVideos with
              | nil => simp [isSubprocSpawn]
              | cons v vs => simp [isSubprocSpawn]
      · cases h : env.ffmpegRun with
        | timedOut => simp [isSubprocSpawn]
        | raised m => simp [isSubprocSpawn]
        | done rc stderr =>
            by_cases hrc : rc ≠ 0
            · simp only [if_pos hrc]
              simp [isSubprocSpawn]
            · simp only [if_neg hrc]
              simp [isSubprocSpawn]

/-- When the inference script is present, the synthesis stage never spawns
the fallback `ffmpeg` process. -/
theorem generate_primary_only (env : Env) (i a o : String)
    (hscr : env.inferenceScriptExists = true) :
    ∀ ev ∈ (generate_video_musetalk env i a o).2, isFfmpegSpawn ev = false := by
  unfold generate_video_musetalk
  split
  · simp
  · split
    · simp
    · cases h : env.inferenceRun with
      | timedOut => simp [isFfmpegSpawn]
      | raised m => simp [isFfmpegSpawn]
      | done rc stderr =>
          by_cases hrc : rc ≠ 0
          · simp only [if_pos hrc]
            simp [isFfmpegSpawn]
          · simp only [if_neg hrc]
            cases hv : env.resultVideos with
            | nil => simp [isFfmpegSpawn]
            | cons v vs => simp [isFfmpegSpawn]

/-- An upload either succeeds with some URL or fails with some error. -/
theorem upload_cases (env : Env) (f b o : String) :
    (∃ u t, upload_to_s3 env f b o = ((some u, none), t)) ∨
      ∃ e t, upload_to_s3 env f b o = ((none, some e), t) := by
  unfold upload_to_s3
  cases hb : env.boto3Import with
  | some m => exact Or.inr ⟨_, _, rfl⟩
  | none =>
      simp only
      by_cases hc : (!isTruthy (resolveCreds env).1 ||
          !isTruthy (resolveCreds env).2.1) = true
      · rw [if_pos hc]
        exact Or.inr ⟨_, _, rfl⟩
      · rw [if_neg hc]
        cases hs : env.s3Upload with
        | some m => exact Or.inr ⟨_, _, rfl⟩
        | none => exact Or.inl ⟨_, _, rfl⟩

/-- Every event an upload call emits is an attempted S3 network call. -/
theorem upload_events_s3 (env : Env) (f b o : String) :
    ∀ ev ∈ (upload_to_s3 env f b o).2, isS3Put ev = true := by
  unfold upload_to_s3
  cases hb : env.boto3Import with
  | some m => simp
  | none =>
      simp only
      by_cases hc : (!isTruthy (resolveCreds env).1 ||
          !isTruthy (resolveCreds env).2.1) = true
      · rw [if_pos hc]; simp
      · rw [if_neg hc]
        cases hs : env.s3Upload with
        | some m => simp [isS3Put]
        | none => simp [isS3Put]

/-- A dict cannot match both result shapes (they have different lengths). -/
theorem shapes_disjoint (dct : Dict) :
    isSuccessShape dct = true → isErrorShape dct = false := by
  rcases dct with _ | ⟨⟨k1, v1⟩, _ | ⟨⟨k2, v2⟩, l⟩⟩
  · simp [isSuccessShape]
  · simp [isSuccessShape]
  · simp [isErrorShape]

/-- The inner pipeline always produces one of the two result shapes. -/
theorem handler_core_shape (env : Env) (jid iu au d : String) :
    isSuccessShape (handler_core env jid iu au d).1 = true ∨
      isErrorShape (handler_core env jid iu au d).1 = true := by
  simp only [handler_core]
  rcases download_file_cases env.fetchImage iu (d ++ "/input.png") with
    h1 | ⟨e1, h1⟩
  · simp only [h1, Option.getD_some]
    rcases download_file_cases env.fetchAudio au (d ++ "/input.wav") with
      h2 | ⟨e2, h2⟩
    · simp only [h2, Option.getD_some]
      rcases generate_cases env (d ++ "/input.png") (d ++ "/input.wav")
        (d ++ "/output.mp4") with ⟨t3, h3⟩ | ⟨e3, t3, h3⟩
      · simp only [h3, Option.getD_some]
        rcases upload_cases env (d ++ "/output.mp4")
            ((env.getenv "RUNPOD_S3_BUCKET").getD "flowsmartly-avatars")
            ("musetalk/" ++ jid ++ ".mp4") with ⟨u4, t4, h4⟩ | ⟨e4, t4, h4⟩
        · simp only [h4, Option.getD_some]
          left
          simp [isSuccessShape]
        · simp only [h4]
          right
          simp [isErrorShape]
      · simp only [h3]
        right
        simp [isErrorShape]
    · simp only [h2]
      right
      simp [isErrorShape]
  · simp only [h1]
    right
    simp [isErrorShape]

/-- An S3-put event is not an ffmpeg spawn. -/
theorem s3Put_not_ffmpeg (ev : Event) :
    isS3Put ev = true → isFfmpegSpawn ev = false := by
  cases ev <;> simp [isS3Put, isFfmpegSpawn]

/-- When the inference script is present, no event of the inner pipeline is
an ffmpeg spawn: the fallback is never chosen over the primary strategy. -/
theorem handler_core_no_ffmpeg (env : Env) (jid iu au d : String)
    (hscr : env.inferenceScriptExists = true) :
    ∀ ev ∈ (handler_core env jid iu au d).2, isFfmpegSpawn ev = false := by
  have hup : ∀ f b o ev, ev ∈ (upload_to_s3 env f b o).2 →
      isFfmpegSpawn ev = false :=
    fun f b o ev hev => s3Put_not_ffmpeg ev (upload_events_s3 env f b o ev hev)
  simp only [handler_core]
  rcases download_file_cases env.fetchImage iu (d ++ "/input.png") with
    h1 | ⟨e1, h1⟩
  · simp only [h1, Option.getD_some]
    rcases download_file_cases env.fetchAudio au (d ++ "/input.wav") with
      h2 | ⟨e2, h2⟩
    · simp only [h2, Option.getD_some]
      rcases generate_cases env (d ++ "/input.png") (d ++ "/input.wav")
        (d ++ "/output.mp4") with ⟨t3, h3⟩ | ⟨e3, t3, h3⟩
      · simp only [h3, Option.getD_some]
        have hg3 : ∀ ev ∈ t3, isFfmpegSpawn ev = false := by
          intro ev hev
          refine generate_primary_only env (d ++ "/input.png")
            (d ++ "/input.wav") (d ++ "/output.mp4") hscr ev ?_
          rw [h3]
          exact hev
        rcases upload_cases env (d ++ "/output.mp4")
            ((env.getenv "RUNPOD_S3_BUCKET").getD "flowsmartly-avatars")
            ("musetalk/" ++ jid ++ ".mp4") with ⟨u4, t4, h4⟩ | ⟨e4, t4, h4⟩
        all_goals
          have hg4 : ∀ ev ∈ t4, isFfmpegSpawn ev = false := by
            intro ev hev
            refine hup (d ++ "/output.mp4")
              ((env.getenv "RUNPOD_S3_BUCKET").getD "flowsmartly-avatars")
              ("musetalk/" ++ jid ++ ".mp4") ev ?_
            rw [h4]
            exact hev
          simp only [h4]
          intro ev hev
          simp only [List.append_assoc, List.mem_append, List.mem_singleton,
            List.mem_cons, List.not_mem_nil, or_false] at hev
          rcases hev with hm | hm | hm | hm
          · simp [hm, isFfmpegSpawn]
          · simp [hm, isFfmpegSpawn]
          · exact hg3 ev hm
          · exact hg4 ev hm
      · simp only [h3]
        have hg3 : ∀ ev ∈ t3, isFfmpegSpawn ev = false := by
          intro ev hev
          refine generate_primary_only env (d ++ "/input.png")
            (d ++ "/input.wav") (d ++ "/output.mp4") hscr ev ?_
          rw [h3]
          exact hev
        intro ev hev
        simp only [List.append_assoc, List.mem_append, List.mem_singleton,
          List.mem_cons, List.not_mem_nil, or_false] at hev
        rcases hev with hm | hm | hm
        · simp [hm, isFfmpegSpawn]
        · simp [hm, isFfmpegSpawn]
        · exact hg3 ev hm
    · simp only [h2]
      intro ev hev
      simp only [List.mem_append, List.mem_singleton] at hev
      rcases hev with hm | hm <;> simp [hm, isFfmpegSpawn]
  · simp only [h1]
    intro ev hev
    simp only [List.mem_singleton] at hev
    simp [hev, isFfmpegSpawn]

/-! ## Concrete sample worlds -/

/-- A configuration with the primary credential pair set. -/
def sampleGetenv : String → Option String := fun k =>
  if k = "BUCKET_ACCESS_KEY_ID" then some "AK"
  else if k = "BUCKET_SECRET_ACCESS_KEY" then some "SK"
  else none

/-- A world where every stage succeeds via the primary strategy. -/
def envHappy : Env where
  modelDirExists := true
  inferenceScriptExists := true
  torchImport := none
  inferenceRun := .done 0 ""
  resultVideos := ["result.mp4"]
  ffmpegRun := .done 0 ""
  fetchImage := .ok
  fetchAudio := .ok
  getenv := sampleGetenv
  boto3Import := none
  s3Upload := none
  mkdtemp := .ok "/tmp/musetalk_w0"
  rmtree := none

/-- A fully populated job descriptor. -/
def jobFull : Job := ⟨some "job1", some "http://img", some "http://aud"⟩

/-- `handler_core` never reads the `rmtree` outcome: the cleanup fault
cannot influence the pipeline's result. -/
theorem handler_core_rmtree_irrel (env : Env) (m : Option String)
    (jid iu au d : String) :
    handler_core { env with rmtree := m } jid iu au d =
      handler_core env jid iu au d := by
  obtain ⟨md, scr, ti, irun, rvids, frun, fi, fa, ge, bi, su, mk, rt⟩ := env
  rfl

/-! ## Claim theorems -/

/-- C1: for every world and every job, `handler` returns a dictionary in
exactly one of the two shapes — the success shape
`{output_video_url, status, model, job_id}` or `{error: string}` — and a
fault not anticipated by a named error kind (in this model, the one
primitive inside the outer `try` that can raise past every stage boundary:
`tempfile.mkdtemp`) is caught at the outermost boundary and returned as
`{error: "Handler error: <detail>"}`; no exception propagates to the
caller (`handler` is a total function into result dictionaries). -/
theorem handler_result_shapes (env : Env) (job : Job) :
    (isSuccessShape (handler env job).1 = true ∨
      isErrorShape (handler env job).1 = true) ∧
    (isSuccessShape (handler env job).1 = true →
      isErrorShape (handler env job).1 = false) ∧
    (∀ m, env.mkdtemp = .error m →
      isTruthy job.input_image_url = true →
      isTruthy job.input_audio_url = true →
      (handler env job).1 = [("error", "Handler error: " ++ m)]) := by
  refine ⟨?_, fun h => shapes_disjoint _ h, ?_⟩
  · cases hi : isTruthy job.input_image_url with
    | false => right; simp [handler, hi, isErrorShape]
    | true =>
      cases ha : isTruthy job.input_audio_url with
      | false => right; simp [handler, hi, ha, isErrorShape]
      | true =>
        cases hmk : env.mkdtemp with
        | error m => right; simp [handler, hi, ha, hmk, isErrorShape]
        | ok dir =>
            have hcore := handler_core_shape env (job.id.getD "unknown")
              (job.input_image_url.getD "") (job.input_audio_url.getD "") dir
            simp only [handler, hi, ha, hmk, Bool.not_true, Bool.false_eq_true,
              if_false]
            exact hcore
  · intro m hm hi ha
    simp [handler, hi, ha, hm]

/-- Witness for C1: a `mkdtemp` fault on a validated job is returned as a
`Handler error` dictionary. -/
theorem handler_result_shapes_witness :
    (handler { envHappy with mkdtemp := .error "boom" } jobFull).1 =
      [("error", "Handler error: " ++ "boom")] :=
  (handler_result_shapes { envHappy with mkdtemp := .error "boom" }
    jobFull).2.2 "boom" rfl rfl rfl

/-- C2: for every job that passes validation and acquires a workspace `d`,
the trace ends with the removal of `d` (after all pipeline events) on
every exit path, and a fault raised by that removal is swallowed: it never
changes the returned result. -/
theorem workspace_cleanup_invariant (env : Env) (job : Job) (d : String)
    (hi : isTruthy job.input_image_url = true)
    (ha : isTruthy job.input_audio_url = true)
    (hmk : env.mkdtemp = .ok d) :
    (∃ t ok, (handler env job).2 =
      Event.mkdtempCall :: t ++ [Event.rmtreeCall d ok]) ∧
    (∀ m, (handler { env with rmtree := some m } job).1 =
      (handler env job).1) := by
  obtain ⟨md, scr, ti, irun, rvids, frun, fi, fa, ge, bi, su, mk, rt⟩ := env
  have hmk' : mk = Except.ok d := hmk
  subst hmk'
  constructor
  · cases rt with
    | none =>
        exact ⟨(handler_core ⟨md, scr, ti, irun, rvids, frun, fi, fa, ge,
          bi, su, Except.ok d, none⟩ (job.id.getD "unknown")
          (job.input_image_url.getD "") (job.input_audio_url.getD "") d).2,
          true, by simp [handler, hi, ha, cleanup]⟩
    | some m =>
        exact ⟨(handler_core ⟨md, scr, ti, irun, rvids, frun, fi, fa, ge,
          bi, su, Except.ok d, some m⟩ (job.id.getD "unknown")
          (job.input_image_url.getD "") (job.input_audio_url.getD "") d).2,
          false, by simp [handler, hi, ha, cleanup]⟩
  · intro m
    simp only [handler, hi, ha, Bool.not_true, Bool.false_eq_true, if_false]
    rfl

/-- Witness for C2: on the all-success world the trace starts with the
acquisition and ends with the removal, and an injected removal fault
leaves the result unchanged. -/
theorem workspace_cleanup_invariant_witness :
    (∃ t ok, (handler envHappy jobFull).2 =
      Event.mkdtempCall :: t ++ [Event.rmtreeCall "/tmp/musetalk_w0" ok]) ∧
    (∀ m, (handler { envHappy with rmtree := some m } jobFull).1 =
      (handler envHappy jobFull).1) :=
  ⟨(workspace_cleanup_invariant envHappy jobFull "/tmp/musetalk_w0"
      rfl rfl rfl).1,
   (workspace_cleanup_invariant envHappy jobFull "/tmp/musetalk_w0"
      rfl rfl rfl).2⟩

/-- C3: a job whose `input_image_url` is missing or empty yields exactly
`{error: "input_image_url is required"}` with an empty trace (no
workspace, no fetch, no synthesis, no publish); with the image URL present
and `input_audio_url` missing or empty, exactly
`{error: "input_audio_url is required"}`, again with an empty trace. -/
theorem missing_url_validation (env : Env) (job : Job) :
    (isTruthy job.input_image_url = false →
      handler env job = ([("error", "input_image_url is required")], [])) ∧
    (isTruthy job.input_image_url = true →
      isTruthy job.input_audio_url = false →
      handler env job = ([("error", "input_audio_url is required")], [])) := by
  constructor
  · intro hi
    simp [handler, hi]
  · intro hi ha
    simp [handler, hi, ha]

/-- Witness for C3: one job with the image URL missing, one with the audio
URL empty. -/
theorem missing_url_validation_witness :
    handler envHappy ⟨some "j1", none, some "http://aud"⟩ =
      ([("error", "input_image_url is required")], []) ∧
    handler envHappy ⟨some "j1", some "http://img", some ""⟩ =
      ([("error", "input_audio_url is required")], []) :=
  ⟨(missing_url_validation envHappy ⟨some "j1", none, some "http://aud"⟩).1 rfl,
   (missing_url_validation envHappy ⟨some "j1", some "http://img", some ""⟩).2
     rfl rfl⟩

/-- C4: when the model asset directory is absent and a job reaches the
synthesis stage, the result is exactly the models-missing error and no
subprocess is ever spawned. -/
theorem models_missing_aborts (env : Env) (job : Job) (iu au d : String)
    (hiu : job.input_image_url = some iu)
    (hau : job.input_audio_url = some au)
    (hi : isTruthy job.input_image_url = true)
    (ha : isTruthy job.input_audio_url = true)
    (hmk : env.mkdtemp = .ok d)
    (hfi : env.fetchImage = .ok) (hfa : env.fetchAudio = .ok)
    (hmd : env.modelDirExists = false) :
    handler env job =
      ([("error", "MuseTalk models not found - run model download first")],
        [Event.mkdtempCall, .httpGet iu requestsTimeout,
          .httpGet au requestsTimeout] ++ cleanup env d) ∧
    ∀ ev ∈ (handler env job).2, isSubprocSpawn ev = false := by
  have heq : handler env job =
      ([("error", "MuseTalk models not found - run model download first")],
        [Event.mkdtempCall, .httpGet iu requestsTimeout,
          .httpGet au requestsTimeout] ++ cleanup env d) := by
    have hi' : isTruthy (some iu) = true := by rw [← hiu]; exact hi
    have ha' : isTruthy (some au) = true := by rw [← hau]; exact ha
    simp [handler, handler_core, hi, ha, hi', ha', hmk, hiu, hau, hfi, hfa,
      download_file, generate_video_musetalk, hmd]
  refine ⟨heq, ?_⟩
  rw [heq]
  intro ev hev
  cases hr : env.rmtree with
  | none =>
      simp only [cleanup, hr, List.mem_append, List.mem_cons,
        List.mem_singleton, List.not_mem_nil, or_false] at hev
      rcases hev with (hm | hm | hm) | hm <;> simp [hm, isSubprocSpawn]
  | some m =>
      simp only [cleanup, hr, List.mem_append, List.mem_cons,
        List.mem_singleton, List.not_mem_nil, or_false] at hev
      rcases hev with (hm | hm | hm) | hm <;> simp [hm, isSubprocSpawn]

/-- Witness for C4: absent model directory on an otherwise healthy world. -/
theorem models_missing_aborts_witness :
    handler { envHappy with modelDirExists := false } jobFull =
      ([("error", "MuseTalk models not found - run model download first")],
        [Event.mkdtempCall, .httpGet "http://img" requestsTimeout,
          .httpGet "http://aud" requestsTimeout] ++
          cleanup { envHappy with modelDirExists := false }
            "/tmp/musetalk_w0") :=
  (models_missing_aborts { envHappy with modelDirExists := false } jobFull
    "http://img" "http://aud" "/tmp/musetalk_w0"
    rfl rfl rfl rfl rfl rfl rfl rfl).1

/-- C5: when the image download hits the fetch timeout, the fetch stage
yields the timeout error whose detail names the 60-second bound (the same
bound passed to the HTTP request), and the job result is exactly the
mapped image-download error. -/
theorem image_timeout_result (env : Env) (job : Job) (iu au d : String)
    (hiu : job.input_image_url = some iu)
    (hau : job.input_audio_url = some au)
    (hi : isTruthy job.input_image_url = true)
    (ha : isTruthy job.input_audio_url = true)
    (hmk : env.mkdtemp = .ok d)
    (hft : env.fetchImage = .timeout) :
    (handler env job).1 =
      [("error",
        "Failed to download image: Download timeout after 60 seconds")] ∧
    (download_file env.fetchImage iu (d ++ "/input.png")).1.2 =
      some ("Download timeout after " ++ toString requestsTimeout ++
        " seconds") ∧
    (download_file env.fetchImage iu (d ++ "/input.png")).2 =
      [.httpGet iu requestsTimeout] := by
  refine ⟨?_, ?_, ?_⟩
  · have hi' : isTruthy (some iu) = true := by rw [← hiu]; exact hi
    have ha' : isTruthy (some au) = true := by rw [← hau]; exact ha
    simp [handler, handler_core, hi, ha, hi', ha', hmk, hiu, hau, hft,
      download_file]
  · rw [hft]
    rfl
  · rw [hft]
    rfl

/-- Witness for C5: a timed-out image fetch on an otherwise healthy world. -/
theorem image_timeout_result_witness :
    (handler { envHappy with fetchImage := .timeout } jobFull).1 =
      [("error",
        "Failed to download image: Download timeout after 60 seconds")] :=
  (image_timeout_result { envHappy with fetchImage := .timeout } jobFull
    "http://img" "http://aud" "/tmp/musetalk_w0" rfl rfl rfl rfl rfl rfl).1

/-- With both halves of the primary pair truthy, resolution keeps the
primary pair and the primary endpoint. -/
theorem resolveCreds_primary (env : Env)
    (h1 : isTruthy (env.getenv "BUCKET_ACCESS_KEY_ID") = true)
    (h2 : isTruthy (env.getenv "BUCKET_SECRET_ACCESS_KEY") = true) :
    resolveCreds env =
      (env.getenv "BUCKET_ACCESS_KEY_ID",
       env.getenv "BUCKET_SECRET_ACCESS_KEY",
       (env.getenv "BUCKET_ENDPOINT_URL").getD "https://storage.runpod.io") := by
  simp [resolveCreds, h1, h2]

/-- With either half of the primary pair falsy, resolution switches to the
fallback pair and the fallback endpoint. -/
theorem resolveCreds_fallback (env : Env)
    (h : isTruthy (env.getenv "BUCKET_ACCESS_KEY_ID") = false ∨
      isTruthy (env.getenv "BUCKET_SECRET_ACCESS_KEY") = false) :
    resolveCreds env =
      (env.getenv "RUNPOD_S3_ACCESS_KEY",
       env.getenv "RUNPOD_S3_SECRET_KEY",
       (env.getenv "RUNPOD_S3_ENDPOINT").getD
         ((env.getenv "BUCKET_ENDPOINT_URL").getD
           "https://storage.runpod.io")) := by
  rcases h with h | h <;> simp [resolveCreds, h]

/-- C6: when neither the primary pair nor the fallback pair resolves,
`upload_to_s3` returns exactly the credentials-missing error with no
network call attempted (empty trace); and resolution is prioritized —
a truthy primary pair is kept, the fallback pair is adopted exactly when
the primary pair is incomplete. -/
theorem s3_credentials_resolution (env : Env) (f b o : String)
    (hb : env.boto3Import = none) :
    ((isTruthy (env.getenv "BUCKET_ACCESS_KEY_ID") = false ∨
        isTruthy (env.getenv "BUCKET_SECRET_ACCESS_KEY") = false) →
      (isTruthy (env.getenv "RUNPOD_S3_ACCESS_KEY") = false ∨
        isTruthy (env.getenv "RUNPOD_S3_SECRET_KEY") = false) →
      upload_to_s3 env f b o =
        ((none, some "S3 credentials not configured"), [])) ∧
    (isTruthy (env.getenv "BUCKET_ACCESS_KEY_ID") = true →
      isTruthy (env.getenv "BUCKET_SECRET_ACCESS_KEY") = true →
      resolveCreds env =
        (env.getenv "BUCKET_ACCESS_KEY_ID",
         env.getenv "BUCKET_SECRET_ACCESS_KEY",
         (env.getenv "BUCKET_ENDPOINT_URL").getD
           "https://storage.runpod.io")) ∧
    ((isTruthy (env.getenv "BUCKET_ACCESS_KEY_ID") = false ∨
        isTruthy (env.getenv "BUCKET_SECRET_ACCESS_KEY") = false) →
      resolveCreds env =
        (env.getenv "RUNPOD_S3_ACCESS_KEY",
         env.getenv "RUNPOD_S3_SECRET_KEY",
         (env.getenv "RUNPOD_S3_ENDPOINT").getD
           ((env.getenv "BUCKET_ENDPOINT_URL").getD
             "https://storage.runpod.io"))) := by
  refine ⟨?_, resolveCreds_primary env, resolveCreds_fallback env⟩
  intro hp hf
  have hres := resolveCreds_fallback env hp
  have hcond : (!isTruthy (resolveCreds env).1 ||
      !isTruthy (resolveCreds env).2.1) = true := by
    rw [hres]
    rcases hf with h | h <;> simp [h]
  unfold upload_to_s3
  rw [hb]
  simp only [hcond, if_true]

/-- Witness for C6: an empty configuration yields the credentials-missing
error with no network call. -/
theorem s3_credentials_resolution_witness :
    upload_to_s3 { envHappy with getenv := fun _ => none }
        "/tmp/v.mp4" "bkt" "k.mp4" =
      ((none, some "S3 credentials not configured"), []) :=
  (s3_credentials_resolution { envHappy with getenv := fun _ => none }
    "/tmp/v.mp4" "bkt" "k.mp4" rfl).1 (Or.inl rfl) (Or.inl rfl)

/-- C7: when the primary synthesis capability (the inference entry point)
is unavailable but the ffmpeg fallback, the credentials and the upload all
succeed, the job result is success-shaped and carries the published URL;
and whenever the inference script is present, no ffmpeg process is ever
spawned anywhere in the pipeline. -/
theorem fallback_selection (env : Env) (job : Job) (iu au d fst : String)
    (hiu : job.input_image_url = some iu)
    (hau : job.input_audio_url = some au)
    (hi : isTruthy job.input_image_url = true)
    (ha : isTruthy job.input_audio_url = true)
    (hmk : env.mkdtemp = .ok d) :
    (env.fetchImage = .ok → env.fetchAudio = .ok →
      env.modelDirExists = true → env.torchImport = none →
      env.inferenceScriptExists = false → env.ffmpegRun = .done 0 fst →
      env.boto3Import = none →
      isTruthy (env.getenv "BUCKET_ACCESS_KEY_ID") = true →
      isTruthy (env.getenv "BUCKET_SECRET_ACCESS_KEY") = true →
      env.s3Upload = none →
      (handler env job).1 =
        [("output_video_url",
            ((env.getenv "BUCKET_ENDPOINT_URL").getD
              "https://storage.runpod.io") ++ "/" ++
            ((env.getenv "RUNPOD_S3_BUCKET").getD "flowsmartly-avatars") ++
            "/" ++ ("musetalk/" ++ job.id.getD "unknown" ++ ".mp4")),
          ("status", "completed"), ("model", "musetalk"),
          ("job_id", job.id.getD "unknown")]) ∧
    (env.inferenceScriptExists = true →
      ∀ ev ∈ (handler env job).2, isFfmpegSpawn ev = false) := by
  constructor
  · intro hfi hfa hmd hti hscr hff hb h1 h2 hs
    have hi' : isTruthy (some iu) = true := by rw [← hiu]; exact hi
    have ha' : isTruthy (some au) = true := by rw [← hau]; exact ha
    have hres := resolveCreds_primary env h1 h2
    have haccess : isTruthy (resolveCreds env).1 = true := by rw [hres]; exact h1
    have hsecret : isTruthy (resolveCreds env).2.1 = true := by
      rw [hres]; exact h2
    simp [handler, handler_core, hi, ha, hi', ha', hmk, hiu, hau, hfi, hfa,
      download_file, generate_video_musetalk, hmd, hti, hscr, hff,
      upload_to_s3, hb, h1, h2, haccess, hsecret, hs, hres]
  · intro hscr
    cases hi2 : isTruthy job.input_image_url with
    | false =>
        intro ev hev
        simp [handler, hi2] at hev
    | true =>
      cases ha2 : isTruthy job.input_audio_url with
      | false =>
          intro ev hev
          simp [handler, hi2, ha2] at hev
      | true =>
        cases hmk2 : env.mkdtemp with
        | error m =>
            intro ev hev
            simp [handler, hi2, ha2, hmk2] at hev
            simp [hev, isFfmpegSpawn]
        | ok dir =>
            have htr : (handler env job).2 = Event.mkdtempCall ::
                (handler_core env (job.id.getD "unknown")
                  (job.input_image_url.getD "")
                  (job.input_audio_url.getD "") dir).2 ++ cleanup env dir := by
              simp [handler, hi2, ha2, hmk2]
            intro ev hev
            rw [htr] at hev
            rcases List.mem_cons.mp hev with hm | hm2
            · simp [hm, isFfmpegSpawn]
            · rcases List.mem_append.mp hm2 with hm | hm
              · exact handler_core_no_ffmpeg env (job.id.getD "unknown")
                  (job.input_image_url.getD "") (job.input_audio_url.getD "")
                  dir hscr ev hm
              · cases hr : env.rmtree <;> simp [cleanup, hr] at hm <;>
                  simp [hm, isFfmpegSpawn]

/-- Witness for C7: the inference script is absent, ffmpeg and the upload
succeed, and the result is the published URL; and on the happy world (the
script present) no ffmpeg spawn occurs in the trace. -/
theorem fallback_selection_witness :
    (handler { envHappy with inferenceScriptExists := false } jobFull).1 =
      [("output_video_url",
          "https://storage.runpod.io" ++ "/" ++ "flowsmartly-avatars" ++
            "/" ++ ("musetalk/" ++ "job1" ++ ".mp4")),
        ("status", "completed"), ("model", "musetalk"), ("job_id", "job1")] ∧
    (∀ ev ∈ (handler envHappy jobFull).2, isFfmpegSpawn ev = false) :=
  ⟨(fallback_selection { envHappy with inferenceScriptExists := false }
      jobFull "http://img" "http://aud" "/tmp/musetalk_w0" ""
      rfl rfl rfl rfl rfl).1 rfl rfl rfl rfl rfl rfl rfl rfl rfl rfl,
   (fallback_selection envHappy jobFull "http://img" "http://aud"
      "/tmp/musetalk_w0" "" rfl rfl rfl rfl rfl).2 rfl⟩

/-- A world taking the fallback path whose ffmpeg invocation times out. -/
def envFallbackTimeout : Env :=
  { envHappy with inferenceScriptExists := false, ffmpegRun := .timedOut }

/-- C8 counterexample: on a job that takes the fallback strategy and whose
ffmpeg invocation exceeds the 60-second bound, the handler returns the
generic `subprocess.TimeoutExpired` message
"Video generation timeout (>5 minutes)", not the FFmpeg-failure
(`FallbackFailed`) message — the returned text does not even begin with
"FFmpeg", so a fallback timeout is not reported as `FallbackFailed`. -/
theorem fallback_timeout_counterexample :
    (handler envFallbackTimeout jobFull).1 =
      [("error", "Video generation timeout (>5 minutes)")] ∧
    "Video generation timeout (>5 minutes)".data.take 7 ≠ "FFmpeg ".data := by
  constructor
  · rfl
  · decide

/-- C8 amended: the fallback ffmpeg invocation is bounded by a 60-second
timeout, and a non-zero ffmpeg exit is reported as the `FallbackFailed`
message ("FFmpeg test video failed: <stderr>"); but an ffmpeg invocation
exceeding the bound is caught by the function-level
`except subprocess.TimeoutExpired` handler shared with the primary
strategy and reported as "Video generation timeout (>5 minutes)". -/
theorem fallback_bound_and_error_mapping (env : Env) (i a o : String)
    (hmd : env.modelDirExists = true) (hti : env.torchImport = none)
    (hscr : env.inferenceScriptExists = false) :
    (generate_video_musetalk env i a o).2 = [.subproc "ffmpeg" 60] ∧
    (∀ rc st, env.ffmpegRun = .done rc st → rc ≠ 0 →
      (generate_video_musetalk env i a o).1.2 =
        some ("FFmpeg test video failed: " ++ st)) ∧
    (env.ffmpegRun = .timedOut →
      (generate_video_musetalk env i a o).1.2 =
        some "Video generation timeout (>5 minutes)") := by
  refine ⟨?_, ?_, ?_⟩
  · cases hr : env.ffmpegRun with
    | done rc st =>
        by_cases hrc : rc ≠ 0 <;>
          simp [generate_video_musetalk, hmd, hti, hscr, hr, hrc,
            ffmpegTimeout]
    | timedOut =>
        simp [generate_video_musetalk, hmd, hti, hscr, hr, ffmpegTimeout]
    | raised m =>
        simp [generate_video_musetalk, hmd, hti, hscr, hr, ffmpegTimeout]
  · intro rc st hr hrc
    simp [generate_video_musetalk, hmd, hti, hscr, hr, hrc]
  · intro hr
    simp [generate_video_musetalk, hmd, hti, hscr, hr]

/-- A world taking the fallback path whose ffmpeg invocation exits 1. -/
def envFallbackExit : Env :=
  { envHappy with inferenceScriptExists := false, ffmpegRun := .done 1 "err" }

/-- Witness for the amended C8: a non-zero ffmpeg exit maps to the
FFmpeg-failure message. -/
theorem fallback_bound_and_error_mapping_witness :
    (generate_video_musetalk envFallbackExit "i.png" "a.wav" "o.mp4").1.2 =
      some ("FFmpeg test video failed: " ++ "err") :=
  (fallback_bound_and_error_mapping envFallbackExit "i.png" "a.wav" "o.mp4"
    rfl rfl rfl).2.1 1 "err" rfl (by decide)

/-- C9: the stages run strictly in the order fetch-image, fetch-audio,
synthesize, publish (after validation and acquisition): the emitted trace
is exactly the concatenation of the completed stages' traces in that
order, the first stage with an error outcome ends the trace (no later
stage event occurs) and its mapped error is the returned result, and on
full success the published URL is returned.  Each conjunct pins the
outcome of the stages that run and gives the whole observable behaviour. -/
theorem pipeline_strict_order (env : Env) (job : Job) (iu au d : String)
    (hiu : job.input_image_url = some iu)
    (hau : job.input_audio_url = some au)
    (hi : isTruthy job.input_image_url = true)
    (ha : isTruthy job.input_audio_url = true)
    (hmk : env.mkdtemp = .ok d) :
    (∀ x e t1,
      download_file env.fetchImage iu (d ++ "/input.png") =
        ((x, some e), t1) →
      handler env job = ([("error", "Failed to download image: " ++ e)],
        Event.mkdtempCall :: t1 ++ cleanup env d)) ∧
    (∀ p1 t1 x e t2,
      download_file env.fetchImage iu (d ++ "/input.png") =
        ((some p1, none), t1) →
      download_file env.fetchAudio au (d ++ "/input.wav") =
        ((x, some e), t2) →
      handler env job = ([("error", "Failed to download audio: " ++ e)],
        Event.mkdtempCall :: t1 ++ t2 ++ cleanup env d)) ∧
    (∀ p1 t1 p2 t2 x e t3,
      download_file env.fetchImage iu (d ++ "/input.png") =
        ((some p1, none), t1) →
      download_file env.fetchAudio au (d ++ "/input.wav") =
        ((some p2, none), t2) →
      generate_video_musetalk env p1 p2 (d ++ "/output.mp4") =
        ((x, some e), t3) →
      handler env job = ([("error", e)],
        Event.mkdtempCall :: t1 ++ t2 ++ t3 ++ cleanup env d)) ∧
    (∀ p1 t1 p2 t2 q t3 x e t4,
      download_file env.fetchImage iu (d ++ "/input.png") =
        ((some p1, none), t1) →
      download_file env.fetchAudio au (d ++ "/input.wav") =
        ((some p2, none), t2) →
      generate_video_musetalk env p1 p2 (d ++ "/output.mp4") =
        ((some q, none), t3) →
      upload_to_s3 env q
        ((env.getenv "RUNPOD_S3_BUCKET").getD "flowsmartly-avatars")
        ("musetalk/" ++ job.id.getD "unknown" ++ ".mp4") = ((x, some e), t4) →
      handler env job = ([("error", e)],
        Event.mkdtempCall :: t1 ++ t2 ++ t3 ++ t4 ++ cleanup env d)) ∧
    (∀ p1 t1 p2 t2 q t3 u t4,
      download_file env.fetchImage iu (d ++ "/input.png") =
        ((some p1, none), t1) →
      download_file env.fetchAudio au (d ++ "/input.wav") =
        ((some p2, none), t2) →
      generate_video_musetalk env p1 p2 (d ++ "/output.mp4") =
        ((some q, none), t3) →
      upload_to_s3 env q
        ((env.getenv "RUNPOD_S3_BUCKET").getD "flowsmartly-avatars")
        ("musetalk/" ++ job.id.getD "unknown" ++ ".mp4") =
        ((some u, none), t4) →
      handler env job = ([("output_video_url", u), ("status", "completed"),
        ("model", "musetalk"), ("job_id", job.id.getD "unknown")],
        Event.mkdtempCall :: t1 ++ t2 ++ t3 ++ t4 ++ cleanup env d)) := by
  have hi' : isTruthy (some iu) = true := by rw [← hiu]; exact hi
  have ha' : isTruthy (some au) = true := by rw [← hau]; exact ha
  refine ⟨?_, ?_, ?_, ?_, ?_⟩
  · intro x e t1 h1
    simp [handler, handler_core, hi, ha, hi', ha', hmk, hiu, hau, h1]
  · intro p1 t1 x e t2 h1 h2
    simp [handler, handler_core, hi, ha, hi', ha', hmk, hiu, hau, h1, h2]
  · intro p1 t1 p2 t2 x e t3 h1 h2 h3
    simp [handler, handler_core, hi, ha, hi', ha', hmk, hiu, hau, h1, h2, h3]
  · intro p1 t1 p2 t2 q t3 x e t4 h1 h2 h3 h4
    simp [handler, handler_core, hi, ha, hi', ha', hmk, hiu, hau,
      h1, h2, h3, h4]
  · intro p1 t1 p2 t2 q t3 u t4 h1 h2 h3 h4
    simp [handler, handler_core, hi, ha, hi', ha', hmk, hiu, hau,
      h1, h2, h3, h4]

/-- Witness for C9: the all-success world runs every stage in order and
returns the published URL. -/
theorem pipeline_strict_order_witness :
    handler envHappy jobFull =
      ([("output_video_url", "https://storage.runpod.io" ++ "/" ++
          "flowsmartly-avatars" ++ "/" ++ ("musetalk/" ++ "job1" ++ ".mp4")),
        ("status", "completed"), ("model", "musetalk"), ("job_id", "job1")],
        Event.mkdtempCall ::
          [Event.httpGet "http://img" requestsTimeout] ++
          [Event.httpGet "http://aud" requestsTimeout] ++
          [Event.subproc "python" inferenceTimeout] ++
          [Event.s3Put "https://storage.runpod.io" "AK" "flowsmartly-avatars"
            ("musetalk/" ++ "job1" ++ ".mp4")] ++
          cleanup envHappy "/tmp/musetalk_w0") :=
  (pipeline_strict_order envHappy jobFull "http://img" "http://aud"
      "/tmp/musetalk_w0" rfl rfl rfl rfl rfl).2.2.2.2
    ("/tmp/musetalk_w0" ++ "/input.png")
    [Event.httpGet "http://img" requestsTimeout]
    ("/tmp/musetalk_w0" ++ "/input.wav")
    [Event.httpGet "http://aud" requestsTimeout]
    ("/tmp/musetalk_w0" ++ "/output.mp4")
    [Event.subproc "python" inferenceTimeout]
    ("https://storage.runpod.io" ++ "/" ++ "flowsmartly-avatars" ++ "/" ++
      ("musetalk/" ++ "job1" ++ ".mp4"))
    [Event.s3Put "https://storage.runpod.io" "AK" "flowsmartly-avatars"
      ("musetalk/" ++ "job1" ++ ".mp4")]
    rfl rfl rfl rfl

/-- C10: a job dict with no `id` key is not rejected; `job.get('id',
'unknown')` substitutes the id "unknown", so a fully successful run
returns `job_id = "unknown"` and publishes the artifact under the object
key "musetalk/unknown.mp4" (visible in the S3 put event of the trace). -/
theorem missing_id_defaults_unknown (env : Env) (job : Job)
    (iu au d v irst : String) (vs : List String)
    (hid : job.id = none)
    (hiu : job.input_image_url = some iu)
    (hau : job.input_audio_url = some au)
    (hi : isTruthy job.input_image_url = true)
    (ha : isTruthy job.input_audio_url = true)
    (hmk : env.mkdtemp = .ok d)
    (hfi : env.fetchImage = .ok) (hfa : env.fetchAudio = .ok)
    (hmd : env.modelDirExists = true) (hti : env.torchImport = none)
    (hscr : env.inferenceScriptExists = true)
    (hir : env.inferenceRun = .done 0 irst)
    (hv : env.resultVideos = v :: vs)
    (hb : env.boto3Import = none)
    (h1 : isTruthy (env.getenv "BUCKET_ACCESS_KEY_ID") = true)
    (h2 : isTruthy (env.getenv "BUCKET_SECRET_ACCESS_KEY") = true)
    (hs : env.s3Upload = none) :
    handler env job =
      ([("output_video_url",
          ((env.getenv "BUCKET_ENDPOINT_URL").getD
            "https://storage.runpod.io") ++ "/" ++
          ((env.getenv "RUNPOD_S3_BUCKET").getD "flowsmartly-avatars") ++
          "/" ++ "musetalk/unknown.mp4"),
        ("status", "completed"), ("model", "musetalk"),
        ("job_id", "unknown")],
        Event.mkdtempCall ::
          [Event.httpGet iu requestsTimeout] ++
          [Event.httpGet au requestsTimeout] ++
          [Event.subproc "python" inferenceTimeout] ++
          [Event.s3Put
            ((env.getenv "BUCKET_ENDPOINT_URL").getD
              "https://storage.runpod.io")
            ((env.getenv "BUCKET_ACCESS_KEY_ID").getD "")
            ((env.getenv "RUNPOD_S3_BUCKET").getD "flowsmartly-avatars")
            "musetalk/unknown.mp4"] ++
          cleanup env d) := by
  have hi' : isTruthy (some iu) = true := by rw [← hiu]; exact hi
  have ha' : isTruthy (some au) = true := by rw [← hau]; exact ha
  have hres := resolveCreds_primary env h1 h2
  have haccess : isTruthy (resolveCreds env).1 = true := by rw [hres]; exact h1
  have hsecret : isTruthy (resolveCreds env).2.1 = true := by
    rw [hres]; exact h2
  have hobj : "musetalk/" ++ "unknown" ++ ".mp4" = "musetalk/unknown.mp4" :=
    rfl
  simp [handler, handler_core, hi, ha, hi', ha', hmk, hiu, hau, hid,
    hfi, hfa, download_file, generate_video_musetalk, hmd, hti, hscr,
    hir, hv, upload_to_s3, hb, h1, h2, haccess, hsecret, hs, hres, hobj]

/-- Witness for C10: the happy world with the `id` key absent. -/
theorem missing_id_defaults_unknown_witness :
    handler envHappy ⟨none, some "http://img", some "http://aud"⟩ =
      ([("output_video_url", "https://storage.runpod.io" ++ "/" ++
          "flowsmartly-avatars" ++ "/" ++ "musetalk/unknown.mp4"),
        ("status", "completed"), ("model", "musetalk"),
        ("job_id", "unknown")],
        Event.mkdtempCall ::
          [Event.httpGet "http://img" requestsTimeout] ++
          [Event.httpGet "http://aud" requestsTimeout] ++
          [Event.subproc "python" inferenceTimeout] ++
          [Event.s3Put "https://storage.runpod.io" "AK" "flowsmartly-avatars"
            "musetalk/unknown.mp4"] ++
          cleanup envHappy "/tmp/musetalk_w0") :=
  missing_id_defaults_unknown envHappy
    ⟨none, some "http://img", some "http://aud"⟩
    "http://img" "http://aud" "/tmp/musetalk_w0" "result.mp4" "" []
    rfl rfl rfl rfl rfl rfl rfl rfl rfl rfl rfl rfl rfl rfl rfl rfl rfl
